import Mathlib

/-!
Verification development for the tap-kpa extractor core
(`src/tap_kpa/client.py`, `src/tap_kpa/streams.py`, `src/tap_kpa/tap.py`).

The Python source manipulates parsed JSON (`response.json()`, field
metadata dictionaries, detail payloads).  We embed JSON values as the
inductive `JValue`, dictionaries as insertion-ordered association lists
(Python 3.7+ dicts preserve insertion order, and assignment to an
existing key keeps its position), and each source function as a Lean
function with the same branching structure.
-/

namespace TapKpa

/-- A parsed JSON value, as handed around by `response.json()` and the
field/payload dictionaries in the source.  Numbers are modelled as
integers (the payloads carry epoch-millisecond integers and counters). -/
inductive JValue where
  | jnull
  | jbool (b : Bool)
  | jnum (n : Int)
  | jstr (s : String)
  | jarr (xs : List JValue)
  | jobj (kvs : List (String × JValue))

/-- First-match lookup in an association list: Python `dict.get(key)`
for dictionaries without repeated keys. -/
def lookupAssoc {α : Type} : List (String × α) → String → Option α
  | [], _ => none
  | (k, v) :: rest, key => if k = key then some v else lookupAssoc rest key

/-- Python `dict[key] = value`: overwrite in place if the key exists
(keeping its position), otherwise append. -/
def dictSet {α : Type} : List (String × α) → String → α → List (String × α)
  | [], key, v => [(key, v)]
  | (k, w) :: rest, key, v =>
      if k = key then (key, v) :: rest else (k, w) :: dictSet rest key v

/-- Python truthiness of a JSON value (`if value:`). -/
def jtruthy : JValue → Bool
  | .jnull => false
  | .jbool b => b
  | .jnum n => n != 0
  | .jstr s => s != ""
  | .jarr xs => !xs.isEmpty
  | .jobj kvs => !kvs.isEmpty

/-- Python truthiness of `dict.get(key)` (None is falsy). -/
def jtruthyOpt : Option JValue → Bool
  | none => false
  | some v => jtruthy v

/-- Python `x == False` on a `dict.get` result: `None == False` is
false, `False == False` is true, and `0 == False` is true (numbers
compare equal to booleans in Python). -/
def pyEqFalse : Option JValue → Bool
  | some (.jbool b) => !b
  | some (.jnum n) => n == 0
  | _ => false

/-- Python `dict.get("error") == "rate_limit_exceeded"`: only a string
value can compare equal to a string literal. -/
def isRateLimitBody : Option JValue → Bool
  | some (.jstr s) => s == "rate_limit_exceeded"
  | _ => false

/-- Python `isinstance(x, bool)` on a `dict.get` result. -/
def isBoolVal : Option JValue → Bool
  | some (.jbool _) => true
  | _ => false

/-- An HTTP response as `validate_response` / `get_next_page_token`
observe it: status code, parsed JSON body, raw text and url. -/
structure Response where
  status_code : Nat
  body : List (String × JValue)
  text : String
  url : String

/-- The f-string built at the top of `KpaStream.validate_response`. -/
def errMsg (r : Response) : String :=
  "Error status code: " ++ toString r.status_code ++ ", response: " ++
    r.text ++ ", response url: " ++ r.url

/-- Outcome of `validate_response`: return normally, raise
`RetriableAPIError`, or raise `FatalAPIError`. -/
inductive Classify where
  | success
  | retriable (msg : String)
  | fatal (msg : String)
  deriving DecidableEq

/-- `KpaStream.validate_response` (client.py:31-49).  The result pairs
the list of `sleep` calls performed (in seconds) with the
classification.  `extra` is `self.extra_retry_statuses`, a singer-sdk
stream attribute this repository never overrides (the SDK default is
`[429]`). -/
def validate_response (extra : List Nat) (r : Response) : List Nat × Classify :=
  if r.status_code = 200 ∧ isRateLimitBody (lookupAssoc r.body "error") = true then
    ([120], .retriable (errMsg r))
  else if r.status_code ∈ extra ∨ (500 ≤ r.status_code ∧ r.status_code < 600) then
    ([], .retriable (errMsg r))
  else if (400 ≤ r.status_code ∧ r.status_code < 500) ∨
      (r.status_code = 200 ∧ pyEqFalse (lookupAssoc r.body "ok") = true) then
    ([], .fatal (errMsg r))
  else ([], .success)

/-- Python `previous_token or 1` in `get_next_page_token`: both `None`
and `0` are falsy and become 1. -/
def orDefaultOne : Option Int → Int
  | none => 1
  | some t => if t = 0 then 1 else t

/-- `response.json().get("paging", {}).get("last_page", 0)`
(client.py:57-59), on a well-typed body (the endpoint returns
`paging.last_page` as an integer when present). -/
def pagingLastPage (r : Response) : Int :=
  match lookupAssoc r.body "paging" with
  | some (.jobj p) =>
      match lookupAssoc p "last_page" with
      | some (.jnum n) => n
      | _ => 0
  | _ => 0

/-- `KpaStream.get_next_page_token` (client.py:51-60): falling off the
end of the Python function returns `None`. -/
def get_next_page_token (r : Response) (previous_token : Option Int) : Option Int :=
  let prev := orDefaultOne previous_token
  let next := prev + 1
  if pagingLastPage r ≥ next then some next else none

/-- The sequence of page tokens a singer-sdk request loop feeds through
`get_next_page_token` against a fixed paging response: start from the
given token, stop when the stream signals no next page.  `fuel` bounds
the recursion. -/
def tokenTrace (r : Response) : Nat → Option Int → List (Option Int)
  | 0, _ => []
  | fuel + 1, tok =>
      tok :: match get_next_page_token r tok with
        | some t => tokenTrace r fuel (some t)
        | none => []

/-- A timing event observed while `make_request` runs: a `sleep`
performed inside `validate_response` (the 120-second rate-limit
cooldown) or a backoff wait between attempts. -/
inductive RunEvent where
  | cooldown (secs : Nat)
  | backoff (secs : Nat)
  deriving DecidableEq

/-- Result of `make_request`: the response on success, the raised
`FatalAPIError` message, or the `RetriableAPIError` message that
escaped once the backoff decorator's tries were exhausted. -/
inductive ReqResult where
  | ok (r : Response)
  | fatalErr (msg : String)
  | retriableExhausted (msg : String)

/-- The wait bound that `backoff.expo` yields before retry number
`attempt + 2` under `factor=2` (and its default base 2):
2, 4, 8, 16.  The decorator's default full jitter draws the actual wait
uniformly from `[0, bound]`; we record the deterministic bound. -/
def expoWait (attempt : Nat) : Nat := 2 * 2 ^ attempt

/-- The loop that `@backoff.on_exception(backoff.expo, RetriableAPIError,
max_tries=5, factor=2)` wraps around `make_request` (client.py:127-136):
attempt `i` sends `responses i` and validates it; a `RetriableAPIError`
is retried until `max_tries` attempts have been made.  Returns the
number of attempts made, the timing events in order, and the outcome. -/
def runRetries (extra : List Nat) (responses : Nat → Response) :
    Nat → Nat → Nat × List RunEvent × ReqResult
  | 0, i => (i, [], .retriableExhausted (errMsg (responses i)))
  | fuel + 1, i =>
      let r := responses i
      match validate_response extra r with
      | (sleeps, .success) => (i + 1, sleeps.map .cooldown, .ok r)
      | (sleeps, .fatal m) => (i + 1, sleeps.map .cooldown, .fatalErr m)
      | (sleeps, .retriable m) =>
          if fuel = 0 then (i + 1, sleeps.map .cooldown, .retriableExhausted m)
          else
            let rest := runRetries extra responses fuel (i + 1)
            (rest.1, sleeps.map .cooldown ++ .backoff (expoWait i) :: rest.2.1, rest.2.2)

/-- `KpaStream.make_request` under its backoff decorator with
`max_tries=5`: the i-th attempt receives `responses i`. -/
def make_request (extra : List Nat) (responses : Nat → Response) :
    Nat × List RunEvent × ReqResult :=
  runRetries extra responses 5 0

/-- The structural schema types `KpaStream.get_jsonschema_type` can
return: `th.BooleanType`, `th.ArrayType(th.StringType)`,
`th.DateTimeType`, `th.IntegerType`,
`th.ArrayType(th.CustomType({type: [object, string]}))`, `th.StringType`. -/
inductive SchemaType where
  | boolean
  | arrayOfString
  | datetime
  | integer
  | arrayObjOrString
  | string
  deriving DecidableEq

/-- A form field's metadata as `forms.info` returns it.  `title` and
`id` are taken as present strings (every claim exercises fields that
carry them); `type` is the JSON string tag or absent; `settings` is the
raw settings object. -/
structure Field where
  id : String
  title : String
  type : Option String
  settings : List (String × JValue)

/-- Python `settings.get(key) == lit` for a string literal `lit`: only
a string value can compare equal. -/
def settingStrIs (s : List (String × JValue)) (key lit : String) : Bool :=
  match lookupAssoc s key with
  | some (.jstr v) => v == lit
  | _ => false

/-- The first guard of `get_jsonschema_type` (client.py:92-95):
`settings.get("inputtype") == "checkbox" or
(settings.get("inputtype") == "switch" and
isinstance(settings.get("defaulted"), bool))`. -/
def isCheckboxLike (s : List (String × JValue)) : Bool :=
  settingStrIs s "inputtype" "checkbox" ||
    (settingStrIs s "inputtype" "switch" && isBoolVal (lookupAssoc s "defaulted"))

/-- The second guard of `get_jsonschema_type` (client.py:97):
`settings.get("style") == "list" and settings.get("multiple")`. -/
def isMultiList (s : List (String × JValue)) : Bool :=
  settingStrIs s "style" "list" && jtruthyOpt (lookupAssoc s "multiple")

/-- `KpaStream.get_jsonschema_type` (client.py:90-105), rule for rule:
checkbox (or switch with a boolean `defaulted`) is boolean; `style ==
"list"` with truthy `multiple` is array-of-string; then the `type` tag
decides datetime / counter / sketch / attachments; anything else is
string. -/
def get_jsonschema_type (f : Field) : SchemaType :=
  if isCheckboxLike f.settings then .boolean
  else if isMultiList f.settings then .arrayOfString
  else if f.type = some "datetime" then .datetime
  else if f.type = some "counter" then .integer
  else if f.type = some "sketch" ∨ f.type = some "attachments" then .arrayObjOrString
  else .string

/-- Python `str.strip()`: drop leading and trailing whitespace.
Implemented structurally over the character list so that concrete
instances evaluate inside the kernel (`String.trim` is defined by
well-founded recursion and does not). -/
def pyStrip (s : String) : String :=
  ⟨((s.data.dropWhile Char.isWhitespace).reverse.dropWhile Char.isWhitespace).reverse⟩

/-- The field-name loop of `KpaStream.get_schema` (client.py:115-122):
`used` is the `fields_dict` list of already-bound names; a field whose
stripped title is already bound is bound as `title_id` instead. -/
def get_schema_fields : List Field → List String → List (String × SchemaType)
  | [], _ => []
  | f :: rest, used =>
      let t0 := (pyStrip f.title)
      let t := if t0 ∈ used then t0 ++ "_" ++ f.id else t0
      (t, get_jsonschema_type f) :: get_schema_fields rest (used ++ [t])

/-- `KpaStream.get_schema` (client.py:107-125): the three fixed
metadata properties followed by one property per field.  The result
stands for the `properties` object of the returned JSON Schema. -/
def get_schema (fields : List Field) : List (String × SchemaType) :=
  ("kpa_id", .integer) :: ("kpa_created", .datetime) :: ("kpa_updated", .datetime) ::
    get_schema_fields fields []

/-- First element of a property's serialized `"type"` list, as read by
`self.schema["properties"].get(field_name, {}).get("type", [""])[0]`
(streams.py:101-103).  singer-sdk serializes `th.Property(name, t)`
(optional, so `"null"` is appended last) as: StringType
`["string","null"]`, BooleanType `["boolean","null"]`, IntegerType
`["integer","null"]`, DateTimeType `["string","null"]` with a
`format: date-time` annotation, and both array types `["array","null"]`.
Hence the head is `"string"` for datetime fields too. -/
def schemaTypeHead : SchemaType → String
  | .boolean => "boolean"
  | .arrayOfString => "array"
  | .datetime => "string"
  | .integer => "integer"
  | .arrayObjOrString => "array"
  | .string => "string"

/-- `self.schema["properties"].get(field_name, {}).get("type", [""])[0]`:
an unknown field name yields the empty string. -/
def fieldTypeOf (schema : List (String × SchemaType)) (name : String) : String :=
  match lookupAssoc schema name with
  | some t => schemaTypeHead t
  | none => ""

/-- The lazy `fields_dict` construction in
`FormsResponseDateStream.post_process` (streams.py:74-79): map each
field id to its raw title, or to `title_id` when the raw title is
already among the bound values.  Unlike `get_schema`, titles are NOT
stripped here. -/
def build_fields_dict : List Field → List (String × String) → List (String × String)
  | [], acc => acc
  | f :: rest, acc =>
      let name := if (acc.map Prod.snd).contains f.title
        then f.title ++ "_" ++ f.id else f.title
      build_fields_dict rest (dictSet acc f.id name)

/-- A value of a normalized record: either a JSON value copied from
the payload, or the `datetime.fromtimestamp(ms / 1000.0, tz=pytz.utc)`
object for `ms` epoch-milliseconds (a Python datetime is a distinct
kind of value from any JSON value). -/
inductive RVal where
  | jv (v : JValue)
  | time (millis : Int)

/-- A detail payload as `post_process` consumes it, shaped as the
`/responses.info` data model prescribes: `id`, `created`/`updated`
epoch-milliseconds, and `latest.responses`, a JSON object mapping
field ids to value containers. -/
structure RawDetailPayload where
  id : Int
  created : Int
  updated : Int
  responses : List (String × JValue)

/-- The three fixed metadata names every detail schema and record carries. -/
def metaNames : List String := ["kpa_id", "kpa_created", "kpa_updated"]

/-- The first three entries written into `processed_row`
(streams.py:86-92). -/
def baseRecord (row : RawDetailPayload) : List (String × RVal) :=
  [("kpa_id", .jv (.jnum row.id)),
   ("kpa_created", .time row.created),
   ("kpa_updated", .time row.updated)]

/-- `value.get("value")` on a container (streams.py:106); a container
that is not a JSON object has no `.get` in Python, and such payloads
never reach this code, so it is read as absent. -/
def containerValue : JValue → Option JValue
  | .jobj kvs => lookupAssoc kvs "value"
  | _ => none

/-- Branch (a)'s guard (streams.py:108-112): `field_type == "string"
and isinstance(value.get("values"), list) and value["values"]`. -/
def hasStringValues (ftype : String) (vk : List (String × JValue)) : Bool :=
  ftype == "string" &&
    match lookupAssoc vk "values" with
    | some (.jarr vs) => !vs.isEmpty
    | _ => false

/-- `value["values"][0]` when the `values` list is non-empty. -/
def stringValuesFirst (vk : List (String × JValue)) : Option JValue :=
  match lookupAssoc vk "values" with
  | some (.jarr (x :: _)) => some x
  | _ => none

/-- `value["utc_time"]` as an integer; the source divides it by 1000.0,
so only a numeric value reaches the conversion (the endpoint delivers
epoch-milliseconds there). -/
def utcMillisOf (vk : List (String × JValue)) : Int :=
  match lookupAssoc vk "utc_time" with
  | some (.jnum n) => n
  | _ => 0

/-- The flattening precedence applied to a truthy extracted `value`
(streams.py:108-122): the string-typed `values` head, else truthy
`attachments` verbatim, else truthy `utc_time` as a UTC datetime, else
the value under the container's first key.  A non-object `value` has no
`.get` in Python and cannot reach a result; it is read as contributing
nothing. -/
def flattenValue (ftype : String) (v : JValue) : Option RVal :=
  match v with
  | .jobj vk =>
      if hasStringValues ftype vk then
        match stringValuesFirst vk with
        | some x => some (.jv x)
        | none => none
      else if jtruthyOpt (lookupAssoc vk "attachments") then
        match lookupAssoc vk "attachments" with
        | some a => some (.jv a)
        | none => none
      else if jtruthyOpt (lookupAssoc vk "utc_time") then
        some (.time (utcMillisOf vk))
      else
        match vk with
        | (_, w) :: _ => some (.jv w)
        | [] => none
  | _ => none

/-- The per-field loop of `post_process` (streams.py:94-122): resolve
each field id through `fields_dict` (silently skipping unresolved ids),
strip the resolved name, read the declared type head off the schema,
and flatten the container's truthy `value` into `processed_row`. -/
def processResponses (fd : List (String × String)) (sch : List (String × SchemaType)) :
    List (String × JValue) → List (String × RVal) → List (String × RVal)
  | [], acc => acc
  | (fid, c) :: rest, acc =>
      let acc2 := match lookupAssoc fd fid with
        | none => acc
        | some fname0 =>
            let fname := (pyStrip fname0)
            match containerValue c with
            | some v =>
                if jtruthy v then
                  match flattenValue (fieldTypeOf sch fname) v with
                  | some rv => dictSet acc fname rv
                  | none => acc
                else acc
            | none => acc
      processResponses fd sch rest acc2

/-- `FormsResponseDateStream.post_process` (streams.py:73-123) with the
field-name resolution `fd` and schema `sch` as explicit inputs and the
seen-id set `st` passed as state: a seen id returns `None` untouched,
otherwise the id is recorded and the flattened record built. -/
def post_process (fd : List (String × String)) (sch : List (String × SchemaType))
    (st : List Int) (row : RawDetailPayload) :
    List Int × Option (List (String × RVal)) :=
  if row.id ∈ st then (st, none)
  else (row.id :: st, some (processResponses fd sch row.responses (baseRecord row)))

/-- The mutable state living on the `FormsResponseDateStream` CLASS
object: `ids = set()` and `fields_dict = {}` are class attributes
(streams.py:45,48), and the dynamically created per-form subclasses in
`TapKpa.discover_forms_streams` (tap.py:68-76) do not override them, so
`self.ids.add(...)` and `self.fields_dict[...] = ...` mutate the one
set and the one dict shared by every form's detail stream for the whole
process lifetime. -/
structure ClassState where
  ids : List Int
  fieldsDict : List (String × String)

/-- `post_process` as it actually runs against the shared class state:
the `fields_dict` is built from the CURRENT stream's fields only if it
is still empty (streams.py:74), then the shared seen-id set is
consulted. -/
def post_process_shared (fields : List Field) (sch : List (String × SchemaType))
    (cs : ClassState) (row : RawDetailPayload) :
    ClassState × Option (List (String × RVal)) :=
  let fd := if cs.fieldsDict.isEmpty then build_fields_dict fields [] else cs.fieldsDict
  if row.id ∈ cs.ids then ({ ids := cs.ids, fieldsDict := fd }, none)
  else ({ ids := row.id :: cs.ids, fieldsDict := fd },
        some (processResponses fd sch row.responses (baseRecord row)))

/-! ### Helper lemmas -/

theorem runRetries_step (extra : List Nat) (rs : Nat → Response) (fuel i : Nat) :
    runRetries extra rs (fuel + 1) i =
      match validate_response extra (rs i) with
      | (sleeps, .success) => (i + 1, sleeps.map .cooldown, .ok (rs i))
      | (sleeps, .fatal m) => (i + 1, sleeps.map .cooldown, .fatalErr m)
      | (sleeps, .retriable m) =>
          if fuel = 0 then (i + 1, sleeps.map .cooldown, .retriableExhausted m)
          else
            let rest := runRetries extra rs fuel (i + 1)
            (rest.1, sleeps.map .cooldown ++ .backoff (expoWait i) :: rest.2.1,
             rest.2.2) := rfl

/-- The pre-jitter `backoff.expo` wait bounds recorded over `n` retries
when the first of them follows attempt `i`. -/
def backoffEvents (i : Nat) : Nat → List RunEvent
  | 0 => []
  | n + 1 => .backoff (expoWait i) :: backoffEvents (i + 1) n

theorem runRetries_all_retriable (extra : List Nat) (rs : Nat → Response)
    (h : ∀ j, validate_response extra (rs j) = ([], .retriable (errMsg (rs j)))) :
    ∀ fuel i, runRetries extra rs (fuel + 1) i =
      (i + fuel + 1, backoffEvents i fuel,
       .retriableExhausted (errMsg (rs (i + fuel)))) := by
  intro fuel
  induction fuel with
  | zero =>
      intro i
      rw [runRetries_step, h i]
      simp [backoffEvents]
  | succ n ih =>
      intro i
      rw [runRetries_step, h i]
      simp only [Nat.succ_ne_zero, if_false, List.map_nil, List.nil_append, ih (i + 1)]
      have h1 : i + 1 + n + 1 = i + (n + 1) + 1 := by omega
      have h2 : i + 1 + n = i + (n + 1) := by omega
      simp [backoffEvents, h1, h2]

theorem lookup_dictSet {α : Type} (m : List (String × α)) (k key : String) (v : α) :
    lookupAssoc (dictSet m k v) key = if key = k then some v else lookupAssoc m key := by
  induction m with
  | nil =>
      rcases eq_or_ne key k with h | h
      · simp [dictSet, lookupAssoc, h]
      · simp [dictSet, lookupAssoc, h, Ne.symm h]
  | cons hd tl ih =>
      obtain ⟨k2, w⟩ := hd
      simp only [dictSet]
      rcases eq_or_ne k2 k with h2 | h2
      · rw [if_pos h2]
        rcases eq_or_ne key k with h | h
        · simp [lookupAssoc, h]
        · have hne : k2 ≠ key := fun hh => h (hh.symm.trans h2)
          simp [lookupAssoc, h, Ne.symm h, hne]
      · rw [if_neg h2]
        simp only [lookupAssoc, ih]
        rcases eq_or_ne k2 key with h | h
        · have hkk : key ≠ k := fun hh => h2 (h.trans hh)
          simp [h, hkk]
        · simp [h]

theorem dictSet_append_of_not_mem {α : Type} (m : List (String × α)) (k : String) (v : α)
    (h : k ∉ m.map Prod.fst) : dictSet m k v = m ++ [(k, v)] := by
  induction m with
  | nil => simp [dictSet]
  | cons hd tl ih =>
      obtain ⟨k2, w⟩ := hd
      simp only [List.map_cons, List.mem_cons] at h
      push_neg at h
      simp [dictSet, Ne.symm h.1, ih h.2]

/-- The one accumulator update a single `(fid, container)` pair makes in
the `post_process` loop. -/
def processOne (fd : List (String × String)) (sch : List (String × SchemaType))
    (fid : String) (c : JValue) (acc : List (String × RVal)) : List (String × RVal) :=
  match lookupAssoc fd fid with
  | none => acc
  | some fname0 =>
      let fname := (pyStrip fname0)
      match containerValue c with
      | some v =>
          if jtruthy v then
            match flattenValue (fieldTypeOf sch fname) v with
            | some rv => dictSet acc fname rv
            | none => acc
          else acc
      | none => acc

theorem processResponses_cons (fd : List (String × String))
    (sch : List (String × SchemaType)) (fid : String) (c : JValue)
    (rest : List (String × JValue)) (acc : List (String × RVal)) :
    processResponses fd sch ((fid, c) :: rest) acc =
      processResponses fd sch rest (processOne fd sch fid c acc) := rfl

theorem lookup_processOne_of_ne (fd : List (String × String))
    (sch : List (String × SchemaType)) (fid : String) (c : JValue)
    (acc : List (String × RVal)) (key : String)
    (h : ∀ fn, lookupAssoc fd fid = some fn → (pyStrip fn) ≠ key) :
    lookupAssoc (processOne fd sch fid c acc) key = lookupAssoc acc key := by
  unfold processOne
  cases hfd : lookupAssoc fd fid with
  | none => rfl
  | some fname =>
      cases hcv : containerValue c with
      | none => rfl
      | some v =>
          dsimp only
          by_cases hTruthy : jtruthy v = true
          · rw [if_pos hTruthy]
            cases hfl : flattenValue (fieldTypeOf sch (pyStrip fname)) v with
            | none => rfl
            | some rv =>
                rw [lookup_dictSet, if_neg (fun hk => h fname hfd hk.symm)]
          · rw [if_neg hTruthy]

theorem lookup_processOne_isSome (fd : List (String × String))
    (sch : List (String × SchemaType)) (fid : String) (c : JValue)
    (acc : List (String × RVal)) (key : String)
    (h : (lookupAssoc acc key).isSome) :
    (lookupAssoc (processOne fd sch fid c acc) key).isSome := by
  unfold processOne
  cases hfd : lookupAssoc fd fid with
  | none => exact h
  | some fname =>
      cases hcv : containerValue c with
      | none => exact h
      | some v =>
          dsimp only
          by_cases hTruthy : jtruthy v = true
          · rw [if_pos hTruthy]
            cases hfl : flattenValue (fieldTypeOf sch (pyStrip fname)) v with
            | none => exact h
            | some rv =>
                rw [lookup_dictSet]
                rcases eq_or_ne key (pyStrip fname) with hk | hk
                · simp [hk]
                · simpa [hk] using h
          · rw [if_neg hTruthy]; exact h

theorem lookup_processResponses_of_ne (fd : List (String × String))
    (sch : List (String × SchemaType)) (resp : List (String × JValue)) :
    ∀ (acc : List (String × RVal)) (key : String),
      (∀ fid fname, lookupAssoc fd fid = some fname → (pyStrip fname) ≠ key) →
      lookupAssoc (processResponses fd sch resp acc) key = lookupAssoc acc key := by
  induction resp with
  | nil => intro acc key _; rfl
  | cons hd rest ih =>
      obtain ⟨fid, c⟩ := hd
      intro acc key h
      rw [processResponses_cons, ih (processOne fd sch fid c acc) key h,
        lookup_processOne_of_ne fd sch fid c acc key (fun fn hfn => h fid fn hfn)]

theorem lookup_processResponses_isSome (fd : List (String × String))
    (sch : List (String × SchemaType)) (resp : List (String × JValue)) :
    ∀ (acc : List (String × RVal)) (key : String),
      (lookupAssoc acc key).isSome →
      (lookupAssoc (processResponses fd sch resp acc) key).isSome := by
  induction resp with
  | nil => intro acc key h; exact h
  | cons hd rest ih =>
      obtain ⟨fid, c⟩ := hd
      intro acc key h
      rw [processResponses_cons]
      exact ih (processOne fd sch fid c acc) key
        (lookup_processOne_isSome fd sch fid c acc key h)

/-! ### Concrete inputs used by witnesses and counterexamples -/

/-- A response whose body carries `paging.last_page = 3`. -/
def page3Resp : Response :=
  ⟨200, [("paging", .jobj [("last_page", .jnum 3)])], "", ""⟩

/-- A 200 response carrying both `ok: false` and
`error: "rate_limit_exceeded"`. -/
def rateLimitOkFalse : Response :=
  ⟨200, [("ok", .jbool false), ("error", .jstr "rate_limit_exceeded")], "body", "url"⟩

/-- A 200 response with `ok: true`. -/
def okTrueResp : Response := ⟨200, [("ok", .jbool true)], "t", "u"⟩

/-- A 200 response with `ok: 0` (the integer zero, not boolean false). -/
def okZeroResp : Response := ⟨200, [("ok", .jnum 0)], "t", "u"⟩

/-! ### Claim theorems -/

/-- C7: the pagination controller treats a `None` previous token as page
1 and returns `(previous_token or 1) + 1` exactly when
`paging.last_page` is at least that next token, else no next page; with
`last_page = 3` the tokens issued are `None, 2, 3` and no 4th page is
requested. -/
theorem c7_pagination_token_rule :
    (∀ r : Response, get_next_page_token r none = get_next_page_token r (some 1)) ∧
    (∀ (r : Response) (prev : Option Int),
        (get_next_page_token r prev = some (orDefaultOne prev + 1) ↔
          orDefaultOne prev + 1 ≤ pagingLastPage r) ∧
        (get_next_page_token r prev = none ↔
          pagingLastPage r < orDefaultOne prev + 1)) ∧
    tokenTrace page3Resp 10 none = [none, some 2, some 3] := by
  refine ⟨fun r => rfl, fun r prev => ?_, rfl⟩
  unfold get_next_page_token
  dsimp only
  rcases le_or_lt (orDefaultOne prev + 1) (pagingLastPage r) with h | h
  · rw [if_pos h]
    exact ⟨⟨fun _ => h, fun _ => rfl⟩,
      ⟨fun hc => Option.noConfusion hc, fun hc => absurd h (not_le.mpr hc)⟩⟩
  · rw [if_neg (not_le.mpr h)]
    exact ⟨⟨fun hc => Option.noConfusion hc, fun hle => absurd hle (not_le.mpr h)⟩,
      ⟨fun _ => h, fun _ => rfl⟩⟩

/-- C7 witness: the token rule evaluated on the `last_page = 3`
response at `previous_token = 2`. -/
theorem c7_pagination_witness :
    (get_next_page_token page3Resp (some 2) = some 3 ↔ (3 : Int) ≤ 3) ∧
    (get_next_page_token page3Resp (some 2) = none ↔ (3 : Int) < 3) :=
  c7_pagination_token_rule.2.1 page3Resp (some 2)

/-- C8: a 200 response whose body `error` equals
`"rate_limit_exceeded"` makes `validate_response` sleep exactly 120
seconds and then raise a retriable (never fatal) error, so inside
`make_request` exactly one 120-second suspension precedes the retry
attempt. -/
theorem c8_rate_limit_cooldown :
    (∀ (extra : List Nat) (r : Response),
        r.status_code = 200 →
        lookupAssoc r.body "error" = some (.jstr "rate_limit_exceeded") →
        validate_response extra r = ([120], .retriable (errMsg r))) ∧
    (∀ (extra : List Nat) (rs : Nat → Response),
        validate_response extra (rs 0) = ([120], .retriable (errMsg (rs 0))) →
        validate_response extra (rs 1) = ([], .success) →
        make_request extra rs = (2, [.cooldown 120, .backoff 2], .ok (rs 1))) := by
  constructor
  · intro extra r h200 herr
    unfold validate_response
    rw [if_pos ⟨h200, by rw [herr]; rfl⟩]
  · intro extra rs h0 h1
    have e : make_request extra rs = runRetries extra rs (4 + 1) 0 := rfl
    rw [e, runRetries_step, h0]
    dsimp only
    rw [if_neg (by decide : ¬(4 = 0))]
    rw [show (4 : Nat) = 3 + 1 from rfl, runRetries_step, h1]
    rfl

/-- C8 witness: the cooldown-then-retriable rule evaluated at the
concrete rate-limited response. -/
theorem c8_rate_limit_witness :
    validate_response [429] rateLimitOkFalse =
      ([120], .retriable (errMsg rateLimitOkFalse)) :=
  c8_rate_limit_cooldown.1 [429] rateLimitOkFalse rfl rfl

/-- C9 (amended): `make_request` retries only retriable failures, makes
at most 5 attempts with pre-jitter backoff bounds 2, 4, 8, 16, and
surfaces the failure after exhaustion; a fatal classification — 4xx not
in the extra-retry set, or a 200 body whose `ok` is Python-equal to
false and whose `error` is not the rate-limit marker — propagates with
a single attempt and a message containing the status code, response
body and URL. -/
theorem c9_retry_policy :
    (∀ (extra : List Nat) (r : Response),
        r.status_code ∉ extra →
        ¬(r.status_code = 200 ∧ isRateLimitBody (lookupAssoc r.body "error") = true) →
        ((400 ≤ r.status_code ∧ r.status_code < 500) ∨
          (r.status_code = 200 ∧ pyEqFalse (lookupAssoc r.body "ok") = true)) →
        validate_response extra r = ([], .fatal (errMsg r))) ∧
    (∀ (extra : List Nat) (rs : Nat → Response) (m : String),
        validate_response extra (rs 0) = ([], .fatal m) →
        make_request extra rs = (1, [], .fatalErr m)) ∧
    (∀ (extra : List Nat) (rs : Nat → Response),
        validate_response extra (rs 0) = ([], .success) →
        make_request extra rs = (1, [], .ok (rs 0))) ∧
    (∀ (extra : List Nat) (rs : Nat → Response),
        (∀ j, validate_response extra (rs j) = ([], .retriable (errMsg (rs j)))) →
        make_request extra rs =
          (5, [.backoff 2, .backoff 4, .backoff 8, .backoff 16],
           .retriableExhausted (errMsg (rs 4)))) ∧
    (∀ r : Response,
        (∃ a b, errMsg r = a ++ toString r.status_code ++ b) ∧
        (∃ a b, errMsg r = a ++ r.text ++ b) ∧
        (∃ a b, errMsg r = a ++ r.url ++ b)) := by
  refine ⟨?_, ?_, ?_, ?_, ?_⟩
  · intro extra r hextra hrl hfatal
    have hmid : ¬(r.status_code ∈ extra ∨ (500 ≤ r.status_code ∧ r.status_code < 600)) := by
      rintro (hmem | ⟨h5, _⟩)
      · exact hextra hmem
      · rcases hfatal with ⟨_, h4b⟩ | ⟨h2a, _⟩ <;> omega
    unfold validate_response
    rw [if_neg hrl, if_neg hmid, if_pos hfatal]
  · intro extra rs m h0
    have e : make_request extra rs = runRetries extra rs (4 + 1) 0 := rfl
    rw [e, runRetries_step, h0]
    rfl
  · intro extra rs h0
    have e : make_request extra rs = runRetries extra rs (4 + 1) 0 := rfl
    rw [e, runRetries_step, h0]
    rfl
  · intro extra rs h
    have e : make_request extra rs = runRetries extra rs (4 + 1) 0 := rfl
    rw [e, runRetries_all_retriable extra rs h 4 0]
    rfl
  · intro r
    refine ⟨⟨"Error status code: ",
        ", response: " ++ r.text ++ ", response url: " ++ r.url, ?_⟩,
      ⟨"Error status code: " ++ toString r.status_code ++ ", response: ",
        ", response url: " ++ r.url, ?_⟩,
      ⟨"Error status code: " ++ toString r.status_code ++ ", response: " ++
        r.text ++ ", response url: ", "", ?_⟩⟩ <;>
      simp [errMsg, String.append_assoc]

/-- C9 witness: a 404 response propagates fatally after one attempt. -/
theorem c9_retry_witness :
    make_request [429] (fun _ => ⟨404, [], "nf", "u"⟩) =
      (1, [], .fatalErr (errMsg ⟨404, [], "nf", "u"⟩)) :=
  c9_retry_policy.2.1 [429] (fun _ => ⟨404, [], "nf", "u"⟩)
    (errMsg ⟨404, [], "nf", "u"⟩)
    (c9_retry_policy.1 [429] ⟨404, [], "nf", "u"⟩ (by decide)
      (by rintro ⟨h, _⟩; cases h) (Or.inl (by constructor <;> decide)))

/-- C9 counterexample: a 200 response carrying both `ok: false` and the
rate-limit marker is classified retriable (the rate-limit branch runs
first) and is retried to exhaustion — 5 attempts — although the claim
calls every `ok == false` body fatal with zero retries. -/
theorem c9_counterexample :
    validate_response [429] rateLimitOkFalse =
      ([120], .retriable (errMsg rateLimitOkFalse)) ∧
    (make_request [429] (fun _ => rateLimitOkFalse)).1 = 5 ∧
    Classify.retriable (errMsg rateLimitOkFalse) ≠
      Classify.fatal (errMsg rateLimitOkFalse) :=
  ⟨rfl, rfl, by decide⟩

/-- C10 (amended): a 200 response whose `error` is not the rate-limit
marker and whose `ok` is absent or any value not Python-equal to
`False` (so neither boolean false nor zero) passes validation with no
error raised, provided 200 is not an extra-retry status. -/
theorem c10_success_classification (extra : List Nat) (r : Response)
    (h200 : r.status_code = 200) (hextra : (200 : Nat) ∉ extra)
    (herr : isRateLimitBody (lookupAssoc r.body "error") = false)
    (hok : pyEqFalse (lookupAssoc r.body "ok") = false) :
    validate_response extra r = ([], .success) := by
  have h1 : ¬(r.status_code = 200 ∧ isRateLimitBody (lookupAssoc r.body "error") = true) := by
    rintro ⟨_, hc⟩
    rw [herr] at hc
    cases hc
  have h2 : ¬(r.status_code ∈ extra ∨ (500 ≤ r.status_code ∧ r.status_code < 600)) := by
    rw [h200]
    rintro (hmem | ⟨h5, _⟩)
    · exact hextra hmem
    · omega
  have h3 : ¬((400 ≤ r.status_code ∧ r.status_code < 500) ∨
      (r.status_code = 200 ∧ pyEqFalse (lookupAssoc r.body "ok") = true)) := by
    rw [h200]
    rintro (⟨h4, _⟩ | ⟨_, hc⟩)
    · omega
    · rw [hok] at hc
      cases hc
  unfold validate_response
  rw [if_neg h1, if_neg h2, if_neg h3]

/-- C10 witness: `ok: true` on a 200 response validates successfully. -/
theorem c10_success_witness : validate_response [429] okTrueResp = ([], .success) :=
  c10_success_classification [429] okTrueResp rfl (by decide) rfl rfl

/-- C10 counterexample: `ok: 0` is not boolean false, yet the response
is classified fatal, because Python `0 == False` holds. -/
theorem c10_counterexample :
    validate_response [429] okZeroResp = ([], .fatal (errMsg okZeroResp)) ∧
    Classify.fatal (errMsg okZeroResp) ≠ Classify.success :=
  ⟨rfl, by decide⟩

/-- A `switch` field with a boolean `defaulted` and type tag
`"counter"`. -/
def switchField : Field :=
  ⟨"1", "t", some "counter", [("inputtype", .jstr "switch"), ("defaulted", .jbool true)]⟩

/-- A plain checkbox field. -/
def checkboxField : Field := ⟨"2", "c", none, [("inputtype", .jstr "checkbox")]⟩

/-- Two fields with stripped-identical titles differing in whitespace. -/
def fieldA1 : Field := ⟨"1", "A", none, []⟩

/-- See `fieldA1`. -/
def fieldA2 : Field := ⟨"2", " A", none, []⟩

/-- C2 (amended): `get_jsonschema_type` applies the rule table in
order with first match winning, where the first rule is
`inputtype == "checkbox"`, OR `inputtype == "switch"` with a boolean
`defaulted`, yielding boolean; then list-style with truthy `multiple`
yields array-of-string, `datetime` yields datetime, `counter` yields
integer, `sketch`/`attachments` yields array of (object or string),
and anything else yields string. -/
theorem c2_schema_rule_table :
    (∀ f : Field, settingStrIs f.settings "inputtype" "checkbox" = true →
        get_jsonschema_type f = .boolean) ∧
    (∀ f : Field, settingStrIs f.settings "inputtype" "switch" = true →
        isBoolVal (lookupAssoc f.settings "defaulted") = true →
        get_jsonschema_type f = .boolean) ∧
    (∀ f : Field, isCheckboxLike f.settings = false →
        settingStrIs f.settings "style" "list" = true →
        jtruthyOpt (lookupAssoc f.settings "multiple") = true →
        get_jsonschema_type f = .arrayOfString) ∧
    (∀ f : Field, isCheckboxLike f.settings = false → isMultiList f.settings = false →
        f.type = some "datetime" → get_jsonschema_type f = .datetime) ∧
    (∀ f : Field, isCheckboxLike f.settings = false → isMultiList f.settings = false →
        f.type = some "counter" → get_jsonschema_type f = .integer) ∧
    (∀ f : Field, isCheckboxLike f.settings = false → isMultiList f.settings = false →
        (f.type = some "sketch" ∨ f.type = some "attachments") →
        get_jsonschema_type f = .arrayObjOrString) ∧
    (∀ f : Field, isCheckboxLike f.settings = false → isMultiList f.settings = false →
        f.type ≠ some "datetime" → f.type ≠ some "counter" →
        f.type ≠ some "sketch" → f.type ≠ some "attachments" →
        get_jsonschema_type f = .string) := by
  refine ⟨?_, ?_, ?_, ?_, ?_, ?_, ?_⟩
  · intro f h
    simp [get_jsonschema_type, isCheckboxLike, h]
  · intro f h1 h2
    simp [get_jsonschema_type, isCheckboxLike, h1, h2]
  · intro f h1 h2 h3
    simp [get_jsonschema_type, isMultiList, h1, h2, h3]
  · intro f h1 h2 h3
    simp [get_jsonschema_type, h1, h2, h3]
  · intro f h1 h2 h3
    simp [get_jsonschema_type, h1, h2, h3]
  · intro f h1 h2 h3
    rcases h3 with h3 | h3 <;> simp [get_jsonschema_type, h1, h2, h3]
  · intro f h1 h2 h3 h4 h5 h6
    simp [get_jsonschema_type, h1, h2, h3, h4, h5, h6]

/-- C2 witness: the checkbox rule evaluated on a concrete field. -/
theorem c2_rule_witness : get_jsonschema_type checkboxField = .boolean :=
  c2_schema_rule_table.1 checkboxField rfl

/-- C2 counterexample: a `switch` field with boolean `defaulted` and
type tag `counter` is typed boolean by the code, while the claim's rule
table (which has no switch clause) yields integer. -/
theorem c2_counterexample :
    get_jsonschema_type switchField = .boolean ∧ SchemaType.boolean ≠ .integer :=
  ⟨rfl, by decide⟩

theorem build_fields_dict_cons (f : Field) (rest : List Field)
    (acc : List (String × String)) :
    build_fields_dict (f :: rest) acc =
      build_fields_dict rest (dictSet acc f.id
        (if (acc.map Prod.snd).contains f.title then f.title ++ "_" ++ f.id
         else f.title)) := rfl

/-- C4 (amended): the schema binds first-come stripped titles as-is and
suffixes `_id` on a stripped-title collision; the normalization-side
`fields_dict` does the same but compares and binds RAW (unstripped)
titles, so the two resolutions agree exactly when titles carry no
surrounding whitespace. -/
theorem c4_title_collision :
    (∀ (f : Field) (rest : List Field) (used : List String),
        (pyStrip f.title) ∉ used →
        get_schema_fields (f :: rest) used =
          ((pyStrip f.title), get_jsonschema_type f) ::
            get_schema_fields rest (used ++ [(pyStrip f.title)])) ∧
    (∀ (f : Field) (rest : List Field) (used : List String),
        (pyStrip f.title) ∈ used →
        get_schema_fields (f :: rest) used =
          ((pyStrip f.title) ++ "_" ++ f.id, get_jsonschema_type f) ::
            get_schema_fields rest (used ++ [(pyStrip f.title) ++ "_" ++ f.id])) ∧
    (∀ (f : Field) (rest : List Field) (acc : List (String × String)),
        (acc.map Prod.snd).contains f.title = false →
        build_fields_dict (f :: rest) acc =
          build_fields_dict rest (dictSet acc f.id f.title)) ∧
    (∀ (f : Field) (rest : List Field) (acc : List (String × String)),
        (acc.map Prod.snd).contains f.title = true →
        build_fields_dict (f :: rest) acc =
          build_fields_dict rest (dictSet acc f.id (f.title ++ "_" ++ f.id))) ∧
    (∀ f1 f2 : Field, (pyStrip f1.title) = (pyStrip f2.title) →
        (get_schema_fields [f1, f2] []).map Prod.fst =
          [(pyStrip f1.title), (pyStrip f2.title) ++ "_" ++ f2.id]) ∧
    (∀ f1 f2 : Field, f1.title = f2.title → f1.id ≠ f2.id →
        build_fields_dict [f1, f2] [] =
          [(f1.id, f1.title), (f2.id, f2.title ++ "_" ++ f2.id)]) := by
  refine ⟨?_, ?_, ?_, ?_, ?_, ?_⟩
  · intro f rest used h
    simp [get_schema_fields, h]
  · intro f rest used h
    simp [get_schema_fields, h]
  · intro f rest acc h
    rw [build_fields_dict_cons, h]
    simp
  · intro f rest acc h
    rw [build_fields_dict_cons, h]
    simp
  · intro f1 f2 h
    simp [get_schema_fields, h]
  · intro f1 f2 h1 h2
    simp [build_fields_dict, dictSet, h1, h2]

/-- C4 witness: two fields both titled `Name`, ids 7 and 8, resolve to
`Name` and `Name_8` in the normalization-side map. -/
theorem c4_collision_witness :
    build_fields_dict [⟨"7", "Name", none, []⟩, ⟨"8", "Name", none, []⟩] [] =
      [("7", "Name"), ("8", "Name_8")] :=
  c4_title_collision.2.2.2.2.2 ⟨"7", "Name", none, []⟩ ⟨"8", "Name", none, []⟩ rfl
    (by decide)

/-- C4 counterexample: titles `"A"` and `" A"` strip to the same title,
so the claim demands `A` and `A_2` in both maps; the schema does
produce `A`/`A_2`, but the normalization-side `fields_dict` compares
raw titles and binds `" A"` unsuffixed. -/
theorem c4_counterexample :
    (get_schema_fields [fieldA1, fieldA2] []).map Prod.fst = ["A", "A_2"] ∧
    build_fields_dict [fieldA1, fieldA2] [] = [("1", "A"), ("2", " A")] ∧
    (" A" : String) ≠ "A_2" ∧ (pyStrip fieldA1.title) = (pyStrip fieldA2.title) :=
  ⟨by decide, by decide, by decide, by decide⟩

/-- C3: within a run, the first normalization of an id returns the
record and adds the id to the seen-id set; every later normalization of
the same id returns null and leaves the state untouched, so the same id
yields exactly one non-null record. -/
theorem c3_dedup :
    (∀ fd sch st (row : RawDetailPayload), row.id ∉ st →
        post_process fd sch st row =
          (row.id :: st,
           some (processResponses fd sch row.responses (baseRecord row)))) ∧
    (∀ fd sch st (row : RawDetailPayload), row.id ∈ st →
        post_process fd sch st row = (st, none)) ∧
    (∀ fd sch st (row row2 : RawDetailPayload), row.id ∉ st → row2.id = row.id →
        (post_process fd sch st row).2.isSome ∧
        post_process fd sch (post_process fd sch st row).1 row2 =
          ((post_process fd sch st row).1, none)) := by
  refine ⟨?_, ?_, ?_⟩
  · intro fd sch st row h
    simp [post_process, h]
  · intro fd sch st row h
    simp [post_process, h]
  · intro fd sch st row row2 h h2
    simp [post_process, h, h2]

/-- C3 witness: id 7 processed twice from an empty seen-id set. -/
theorem c3_dedup_witness :
    (post_process [] [] [] ⟨7, 0, 0, []⟩).2.isSome ∧
    post_process [] [] (post_process [] [] [] ⟨7, 0, 0, []⟩).1 ⟨7, 5, 5, []⟩ =
      ((post_process [] [] [] ⟨7, 0, 0, []⟩).1, none) :=
  c3_dedup.2.2 [] [] [] ⟨7, 0, 0, []⟩ ⟨7, 5, 5, []⟩ (List.not_mem_nil 7) rfl

/-- Fields of a first discovered form. -/
def formAfields : List Field := [⟨"a1", "Alpha", none, []⟩]

/-- Fields of a second, unrelated form. -/
def formBfields : List Field := [⟨"b1", "Beta", none, []⟩]

/-- A detail payload of form A with id 9. -/
def rowA9 : RawDetailPayload := ⟨9, 1000, 2000, []⟩

/-- A detail payload of form B, same id 9, carrying a value for B's
field `b1`. -/
def rowB9 : RawDetailPayload :=
  ⟨9, 3000, 4000, [("b1", .jobj [("value", .jobj [("v", .jstr "x")])])]⟩

/-- Form A's stream normalizes `rowA9` first, mutating the shared class
state. -/
def c5step1 : ClassState × Option (List (String × RVal)) :=
  post_process_shared formAfields (get_schema formAfields) ⟨[], []⟩ rowA9

/-- Form B's stream then normalizes `rowB9` against the state left by
form A. -/
def c5step2 : ClassState × Option (List (String × RVal)) :=
  post_process_shared formBfields (get_schema formBfields) c5step1.1 rowB9

/-- C5 evidence: because `ids` and `fields_dict` are class attributes
shared by every dynamically-created per-form detail stream, form B's
record with id 9 is dropped as a duplicate of form A's, and B is left
using A's field-name resolution — contradicting the claimed per-(form,
sync-run) isolation. -/
theorem c5_shared_class_state :
    c5step1.2 = some (baseRecord rowA9) ∧
    c5step2.2 = none ∧
    c5step1.1.fieldsDict = [("a1", "Alpha")] ∧
    c5step2.1.fieldsDict = [("a1", "Alpha")] :=
  ⟨rfl, rfl, rfl, rfl⟩

/-- C1 (amended): the flattening precedence of `post_process`, with the
truthiness the code actually tests: (a) a `"string"`-headed declared
type (true for string- and datetime-typed fields) with a non-empty
`values` list takes its first element; (b) else a truthy `attachments`
is copied verbatim; (c) else a truthy (non-zero) `utc_time` becomes a
UTC timestamp; (d) else the container's first key's value is taken.
An unresolved field id is skipped and an absent `value` contributes no
entry. -/
theorem c1_flatten_precedence :
    (∀ (ft : String) (vk : List (String × JValue)) (x : JValue) (xs : List JValue),
        ft = "string" → lookupAssoc vk "values" = some (.jarr (x :: xs)) →
        flattenValue ft (.jobj vk) = some (.jv x)) ∧
    (∀ (ft : String) (vk : List (String × JValue)) (a : JValue),
        hasStringValues ft vk = false →
        lookupAssoc vk "attachments" = some a → jtruthy a = true →
        flattenValue ft (.jobj vk) = some (.jv a)) ∧
    (∀ (ft : String) (vk : List (String × JValue)) (n : Int),
        hasStringValues ft vk = false →
        jtruthyOpt (lookupAssoc vk "attachments") = false →
        lookupAssoc vk "utc_time" = some (.jnum n) → n ≠ 0 →
        flattenValue ft (.jobj vk) = some (.time n)) ∧
    (∀ (ft k : String) (w : JValue) (vrest : List (String × JValue)),
        hasStringValues ft ((k, w) :: vrest) = false →
        jtruthyOpt (lookupAssoc ((k, w) :: vrest) "attachments") = false →
        jtruthyOpt (lookupAssoc ((k, w) :: vrest) "utc_time") = false →
        flattenValue ft (.jobj ((k, w) :: vrest)) = some (.jv w)) ∧
    (∀ fd sch st (row : RawDetailPayload) (fid : String) (c : JValue),
        row.id ∉ st → row.responses = [(fid, c)] → lookupAssoc fd fid = none →
        (post_process fd sch st row).2 = some (baseRecord row)) ∧
    (∀ fd sch st (row : RawDetailPayload) (fid fname : String) (c : JValue),
        row.id ∉ st → row.responses = [(fid, c)] →
        lookupAssoc fd fid = some fname → containerValue c = none →
        (post_process fd sch st row).2 = some (baseRecord row)) ∧
    (∀ fd sch st (row : RawDetailPayload) (fid fname : String) (c v : JValue)
        (rv : RVal),
        row.id ∉ st → row.responses = [(fid, c)] →
        lookupAssoc fd fid = some fname →
        containerValue c = some v → jtruthy v = true →
        flattenValue (fieldTypeOf sch (pyStrip fname)) v = some rv →
        (pyStrip fname) ∉ (baseRecord row).map Prod.fst →
        (post_process fd sch st row).2 =
          some (baseRecord row ++ [((pyStrip fname), rv)])) := by
  refine ⟨?_, ?_, ?_, ?_, ?_, ?_, ?_⟩
  · intro ft vk x xs h1 h2
    subst h1
    have hs : hasStringValues "string" vk = true := by
      simp [hasStringValues, h2]
    have hv : stringValuesFirst vk = some x := by
      simp [stringValuesFirst, h2]
    simp [flattenValue, hs, hv]
  · intro ft vk a h1 h2 h3
    simp [flattenValue, h1, jtruthyOpt, h2, h3]
  · intro ft vk n h1 h2 h3 h4
    have hutc : jtruthyOpt (lookupAssoc vk "utc_time") = true := by
      rw [h3]
      simp [jtruthyOpt, jtruthy, h4]
    have hmil : utcMillisOf vk = n := by
      simp [utcMillisOf, h3]
    simp [flattenValue, h1, h2, hutc, hmil]
  · intro ft k w vrest h1 h2 h3
    simp [flattenValue, h1, h2, h3]
  · intro fd sch st row fid c hmem hresp hfd
    simp [post_process, hmem, hresp, processResponses_cons, processOne, hfd,
      processResponses]
  · intro fd sch st row fid fname c hmem hresp hfd hcv
    simp [post_process, hmem, hresp, processResponses_cons, processOne, hfd, hcv,
      processResponses]
  · intro fd sch st row fid fname c v rv hmem hresp hfd hcv htr hfl hkeys
    have hset : dictSet (baseRecord row) (pyStrip fname) rv =
        baseRecord row ++ [((pyStrip fname), rv)] :=
      dictSet_append_of_not_mem _ _ _ hkeys
    simp [post_process, hmem, hresp, processResponses_cons, processOne, hfd, hcv,
      htr, hfl, processResponses, hset]

/-- C1 witness: branch (a) on a concrete two-element `values` list. -/
theorem c1_flatten_witness :
    flattenValue "string" (.jobj [("values", .jarr [.jstr "a", .jstr "b"])]) =
      some (.jv (.jstr "a")) :=
  c1_flatten_precedence.1 "string" [("values", .jarr [.jstr "a", .jstr "b"])]
    (.jstr "a") [.jstr "b"] rfl rfl

/-- A container value with a non-null but empty `attachments` next to
another key. -/
def attachListValue : JValue :=
  .jobj [("foo", .jstr "bar"), ("attachments", .jarr [])]

/-- A container value whose `utc_time` is present but zero. -/
def utcZeroValue : JValue := .jobj [("utc_time", .jnum 0)]

/-- A container value with a two-element `values` list. -/
def valuesPair : JValue := .jobj [("values", .jarr [.jstr "x", .jstr "y"])]

/-- C1 counterexample: a non-null but empty `attachments` is NOT used
verbatim (the code tests truthiness, so `"bar"` wins); a present but
zero `utc_time` is NOT converted (the raw 0 wins); and a
datetime-typed field, whose declared JSON type head is `"string"`,
takes `values[0]` although the claim reserves branch (a) for
string-typed fields. -/
theorem c1_counterexample :
    flattenValue "string" attachListValue = some (.jv (.jstr "bar")) ∧
    RVal.jv (.jstr "bar") ≠ RVal.jv (.jarr []) ∧
    flattenValue "" utcZeroValue = some (.jv (.jnum 0)) ∧
    RVal.jv (.jnum 0) ≠ RVal.time 0 ∧
    fieldTypeOf [("d", SchemaType.datetime)] "d" = "string" ∧
    flattenValue (fieldTypeOf [("d", SchemaType.datetime)] "d") valuesPair =
      some (.jv (.jstr "x")) := by
  refine ⟨rfl, ?_, rfl, ?_, rfl, rfl⟩
  · intro h
    injection h with h1
    injection h1
  · intro h
    injection h

/-- C6 (amended): normalization returns null exactly for a duplicate
id; otherwise it returns a record that always contains the three
metadata keys, and those keys hold `kpa_id = raw.id` and the UTC
conversions of `raw.created`/`raw.updated` whenever no resolved field
name strips to a metadata name (a colliding field overwrites the
metadata entry). -/
theorem c6_fixed_metadata :
    (∀ fd sch st (row : RawDetailPayload),
        ((post_process fd sch st row).2 = none ↔ row.id ∈ st)) ∧
    (∀ fd sch st (row : RawDetailPayload) (r0 : List (String × RVal)),
        (post_process fd sch st row).2 = some r0 →
        (lookupAssoc r0 "kpa_id").isSome ∧
        (lookupAssoc r0 "kpa_created").isSome ∧
        (lookupAssoc r0 "kpa_updated").isSome) ∧
    (∀ fd sch st (row : RawDetailPayload) (r0 : List (String × RVal)),
        (post_process fd sch st row).2 = some r0 →
        (∀ fid fname, lookupAssoc fd fid = some fname →
          (pyStrip fname) ∉ metaNames) →
        lookupAssoc r0 "kpa_id" = some (.jv (.jnum row.id)) ∧
        lookupAssoc r0 "kpa_created" = some (.time row.created) ∧
        lookupAssoc r0 "kpa_updated" = some (.time row.updated)) := by
  refine ⟨?_, ?_, ?_⟩
  · intro fd sch st row
    by_cases h : row.id ∈ st <;> simp [post_process, h]
  · intro fd sch st row r0 hsome
    by_cases hmem : row.id ∈ st
    · simp [post_process, hmem] at hsome
    · simp [post_process, hmem] at hsome
      subst hsome
      exact ⟨lookup_processResponses_isSome fd sch row.responses _ _ rfl,
        lookup_processResponses_isSome fd sch row.responses _ _ rfl,
        lookup_processResponses_isSome fd sch row.responses _ _ rfl⟩
  · intro fd sch st row r0 hsome hres
    by_cases hmem : row.id ∈ st
    · simp [post_process, hmem] at hsome
    · simp [post_process, hmem] at hsome
      subst hsome
      have hne : ∀ key, key ∈ metaNames →
          ∀ fid fname, lookupAssoc fd fid = some fname → (pyStrip fname) ≠ key :=
        fun key hkey fid fname hf he => hres fid fname hf (he ▸ hkey)
      refine ⟨?_, ?_, ?_⟩ <;>
        rw [lookup_processResponses_of_ne fd sch row.responses (baseRecord row) _
          (hne _ (by simp [metaNames]))] <;> rfl

/-- C6 witness: a one-field resolution that collides with nothing keeps
the metadata intact on a concrete payload. -/
theorem c6_metadata_witness :
    lookupAssoc (baseRecord ⟨7, 1, 2, []⟩) "kpa_id" = some (.jv (.jnum 7)) ∧
    lookupAssoc (baseRecord ⟨7, 1, 2, []⟩) "kpa_created" = some (.time 1) ∧
    lookupAssoc (baseRecord ⟨7, 1, 2, []⟩) "kpa_updated" = some (.time 2) :=
  c6_fixed_metadata.2.2 [("g", "Note")] [] [] ⟨7, 1, 2, []⟩
    (baseRecord ⟨7, 1, 2, []⟩) rfl
    (by
      intro fid fname hf
      by_cases hg : ("g" : String) = fid
      · rw [lookupAssoc, if_pos hg] at hf
        injection hf with hf
        subst hf
        decide
      · rw [lookupAssoc, if_neg hg] at hf
        cases hf)

/-- A field literally titled `kpa_id`. -/
def kpaIdField : Field := ⟨"f1", "kpa_id", none, []⟩

/-- The resolution `post_process` builds for `[kpaIdField]`. -/
def kpaIdFd : List (String × String) := [("f1", "kpa_id")]

/-- A payload with id 9 carrying a value for the `kpa_id`-titled field. -/
def rowC6 : RawDetailPayload :=
  ⟨9, 0, 0, [("f1", .jobj [("value", .jobj [("x", .jstr "boom")])])]⟩

/-- C6 counterexample: a form field titled `kpa_id` overwrites the
fixed metadata entry, so the emitted record's `kpa_id` is `"boom"`,
not `raw.id = 9`. -/
theorem c6_counterexample :
    (post_process kpaIdFd (get_schema [kpaIdField]) [] rowC6).2 =
      some [("kpa_id", RVal.jv (.jstr "boom")), ("kpa_created", RVal.time 0),
            ("kpa_updated", RVal.time 0)] ∧
    RVal.jv (.jstr "boom") ≠ RVal.jv (.jnum 9) := by
  refine ⟨rfl, ?_⟩
  intro h
  injection h with h1
  injection h1

end TapKpa
